import Mathlib

/-!
# GVM-guest: verification of the guest agent against its specification

Shallow embedding of the GVM guest control agent (`src/guest.rs`,
`src/common.rs`, `src/linux/networking.rs`) in Lean 4, together with
theorems settling the specification claims about the command dispatcher,
the plugin registry and the network provisioner.

Modelling conventions:
* Rust `String` is Lean `String`; `Option<String>` is `Option String`.
* The `HashMap<String, Container<PluginApi>>` plugin registry is an
  association list `List (String × PluginApi)`; the code only inserts a
  key after a negative `contains_key` check, so keys stay distinct.
* A dynamically loaded plugin is a record of its three entry points.
  A null `*const c_char` return is `none`.  Plugin invocations are
  additionally recorded as an event trace so that invocation counts
  (e.g. the double `stop()` call) are visible in the model.
* Filesystem / dlopen effects are supplied by environment records
  (`Env`, `NetEnv`); file writes and external commands are recorded as
  an effect trace (`FsOp`).
* Rust panics (out-of-bounds `Vec` index, `unwrap` on `Err`/`None`,
  arithmetic overflow in debug builds) are modelled by an explicit
  `panic` outcome of a total function.  In the dispatcher this covers the
  `CString::new(msg).unwrap()` of `guest.rs` line 164, which aborts when
  the inbound message contains an interior NUL character (reachable from
  the wire via a JSON `\u0000` escape).  The `to_str().unwrap()` calls on
  plugin returns cannot fail in the model: plugin outputs are Lean
  `String`s, i.e. already valid UTF-8.
-/

/-- `GVMError` from `src/common.rs` (lines 13-24). -/
inductive GVMError : Type
  | IOError
  | NicNotFound
  | PluginNotFound
  | PluginLoaded
  | PluginCommandNotSupported
deriving DecidableEq, Repr

/-- The `fmt::Display` implementation for `GVMError` (`src/common.rs` lines 26-36). -/
def GVMError.toString : GVMError → String
  | .IOError => "IOError"
  | .NicNotFound => "NicNotFound"
  | .PluginNotFound => "PluginNotFound"
  | .PluginLoaded => "PluginLoaded"
  | .PluginCommandNotSupported => "PluginCommandNotSupported"

/-- `GVMCmd` from `src/common.rs` (lines 46-59). -/
inductive GVMCmd : Type
  | GetNetwork
  | StartPlugin
  | CreatePluginLinks
  | PluginCmd
  | StopPlugin
  | ShutdownGuest
deriving DecidableEq, Repr

/-- `Command` (guest→host message) from `src/common.rs` (lines 63-71). -/
structure Command : Type where
  cmd : GVMCmd
  resp : Option String
  finished : Option Bool
deriving DecidableEq, Repr

/-- `Network` descriptor from `src/common.rs` (lines 75-82). -/
structure Network : Type where
  mac : String
  ip : String
  gateway : String
deriving DecidableEq, Repr

/-- `PluginMsg` (host→guest message) from `src/common.rs` (lines 86-93). -/
structure PluginMsg : Type where
  cmd : GVMCmd
  plugin : String
  msg : Option String
deriving DecidableEq, Repr

/-- The three entry points of a loaded plugin (`PluginApi` in `src/guest.rs`
lines 55-68).  Each returns a possibly-null C string, modelled as
`Option String`; the plugin is modelled as pure, with invocations recorded
separately in the event trace. -/
structure PluginApi : Type where
  start : Option String
  cmd_process : String → Option String
  stop : Option String

/-- The dispatcher's registry: `HashMap<String, Container<PluginApi>>`
(`plugins` in `src/guest.rs` line 71), as an association list. -/
def Registry : Type := List (String × PluginApi)

/-- One plugin entry-point invocation made by the dispatcher. -/
inductive Event : Type
  | callStart (plugin : String)
  | callProcess (plugin : String) (msg : String)
  | callStop (plugin : String)
deriving DecidableEq, Repr

/-- Environment for the service loop: `Path::new(name).exists()` and
`Container::load(&name)` (`src/guest.rs` lines 129-133).  `load name = none`
models a failing `Container::load`. -/
structure Env : Type where
  pathExists : String → Bool
  load : String → Option PluginApi

/-- Result of processing one decoded `PluginMsg` in the service loop:
the plugin invocations made, the `Command`s written with `write_command`
(in order), the registry afterwards, whether the loop was exited
(`break` on `ShutdownGuest`), and whether the iteration panicked
(aborting the process before any response could be written). -/
structure StepOut : Type where
  events : List Event
  out : List Command
  regs : Registry
  exited : Bool
  panicked : Bool

/-- Number of registry entries stored under key `k`. -/
def Registry.countKey (r : Registry) (k : String) : Nat :=
  List.countP (fun e => e.1 == k) r

/-- One iteration of the service-phase loop of `main` (`src/guest.rs`
lines 113-209) after a successful decode of `command : PluginMsg`:
the `match command.cmd` block (lines 125-203) followed by the
unconditional `write_command` (lines 204-208), which is skipped only by
the `break` of `ShutdownGuest`.  `fin` starts `false` and `resp` starts
`None` (lines 122-123).  The `PluginCmd` arm with `msg` present first
builds `CString::new(command.msg.unwrap()).unwrap()` (line 164), which
panics — aborting the process with no plugin invocation and no response —
when the message contains an interior NUL character. -/
def service_step (env : Env) (plugins : Registry) (command : PluginMsg) : StepOut :=
  match command.cmd with
  | .CreatePluginLinks =>
    match List.lookup command.plugin plugins with
    | none =>
      if !(env.pathExists command.plugin) then
        { events := [], regs := plugins, exited := false, panicked := false,
          out := [{ cmd := command.cmd, resp := some GVMError.PluginNotFound.toString,
                    finished := some false }] }
      else
        match env.load command.plugin with
        | none =>
          { events := [], regs := plugins, exited := false, panicked := false,
            out := [{ cmd := command.cmd, resp := some GVMError.PluginNotFound.toString,
                      finished := some false }] }
        | some api =>
          { events := [], regs := (command.plugin, api) :: plugins, exited := false, panicked := false,
            out := [{ cmd := command.cmd, resp := none, finished := some true }] }
    | some _ =>
      { events := [], regs := plugins, exited := false, panicked := false,
        out := [{ cmd := command.cmd, resp := some GVMError.PluginLoaded.toString,
                  finished := some false }] }
  | .StartPlugin =>
    match List.lookup command.plugin plugins with
    | some api =>
      { events := [.callStart command.plugin], regs := plugins, exited := false, panicked := false,
        out := [{ cmd := command.cmd, resp := api.start, finished := some true }] }
    | none =>
      { events := [], regs := plugins, exited := false, panicked := false,
        out := [{ cmd := command.cmd, resp := some GVMError.PluginNotFound.toString,
                  finished := some false }] }
  | .PluginCmd =>
    match List.lookup command.plugin plugins with
    | some api =>
      match command.msg with
      | some m =>
        if (Char.ofNat 0) ∈ m.data then
          -- `CString::new(..).unwrap()` (line 164) panics on an interior
          -- NUL byte, before `cmd_process` is ever invoked.
          { events := [], out := [], regs := plugins, exited := false, panicked := true }
        else
          { events := [.callProcess command.plugin m], regs := plugins, exited := false, panicked := false,
            out := [{ cmd := command.cmd, resp := api.cmd_process m, finished := some true }] }
      | none =>
        -- `command.msg.is_some()` is false: the match arm does nothing,
        -- but the trailing `write_command` still runs with fin = false.
        { events := [], regs := plugins, exited := false, panicked := false,
          out := [{ cmd := command.cmd, resp := none, finished := some false }] }
    | none =>
      { events := [], regs := plugins, exited := false, panicked := false,
        out := [{ cmd := command.cmd, resp := some GVMError.PluginNotFound.toString,
                  finished := some false }] }
  | .StopPlugin =>
    match List.lookup command.plugin plugins with
    | some api =>
      -- lines 182-183: `stop()` is invoked twice; the first result is
      -- dropped, the response is built from the second call.
      { events := [.callStop command.plugin, .callStop command.plugin],
        regs := plugins, exited := false, panicked := false,
        out := [{ cmd := command.cmd, resp := api.stop, finished := some true }] }
    | none =>
      { events := [], regs := plugins, exited := false, panicked := false,
        out := [{ cmd := command.cmd, resp := some GVMError.PluginNotFound.toString,
                  finished := some false }] }
  | .ShutdownGuest =>
    -- line 196-198: `break` out of the loop; no `write_command`.
    { events := [], out := [], regs := plugins, exited := true, panicked := false }
  | .GetNetwork =>
    -- the `_` arm (lines 199-202): unsupported command.
    { events := [], regs := plugins, exited := false, panicked := false,
      out := [{ cmd := command.cmd, resp := some GVMError.PluginCommandNotSupported.toString,
                finished := some false }] }

/-- The service-phase loop of `main` over a finite sequence of inbound
decode results: `none` is a failed `serde_json` decode (`continue`,
lines 117-119), `some m` a decoded `PluginMsg`.  Returns the outbound
`Command`s written, the final registry, and `true` when the loop was
exited by `ShutdownGuest` (after which `main` returns `Ok(())`);
`false` means the input sequence ran out with the loop still blocked on
the next read. -/
def service_loop (env : Env) (plugins : Registry) :
    List (Option PluginMsg) → List Command × Registry × Bool
  | [] => ([], plugins, false)
  | none :: rest => service_loop env plugins rest
  | some m :: rest =>
    let s := service_step env plugins m
    if s.panicked then
      -- the process aborted: nothing further is read or written,
      -- and `main` does not return `Ok(())`.
      (s.out, s.regs, false)
    else if s.exited then
      (s.out, s.regs, true)
    else
      let (outs, r, t) := service_loop env s.regs rest
      (s.out ++ outs, r, t)

/-! ## Network provisioning (`src/linux/networking.rs`) -/

/-- Outcome of a Rust function that may also panic: `ok`/`err` mirror
`Result`, `panic` models an out-of-bounds index, a failed `unwrap`, or
arithmetic overflow in a debug build. -/
inductive RunResult (α : Type) : Type
  | ok (a : α)
  | err (e : GVMError)
  | panic
deriving DecidableEq, Repr

/-- One external effect of the network provisioner: an `fs::write` or a
`Command::new(..).args(..).output()` invocation. -/
inductive FsOp : Type
  | writeFile (path : String) (contents : String)
  | runCmd (program : String) (args : List String)
deriving DecidableEq, Repr

/-- Environment for the network provisioner: the `/sys/class/net` entries as
(device name, raw contents of its `address` file) in directory-iteration
order, whether `/etc/netplan` is a directory, and the string produced by
`Uuid::new_v4()` (randomness modelled as environment-supplied; no verified
property depends on its value). -/
structure NetEnv : Type where
  interfaces : List (String × String)
  netplanDir : Bool
  uuid : String

/-- `prev_contents.strip_suffix("\n").unwrap_or(&prev_contents)`
(`networking.rs` line 31): drop one trailing newline if present. -/
def strip_newline (s : String) : String :=
  match s.data.getLast? with
  | some c => if c = '\n' then { data := s.data.dropLast } else s
  | none => s

/-- `find_mac` (`networking.rs` lines 21-50): scan the `/sys/class/net`
entries in order, strip a trailing newline from each `address` file, return
the first device whose address equals `mac`, else `NicNotFound`. -/
def find_mac (env : NetEnv) (mac : String) : Except GVMError String :=
  match env.interfaces.find? (fun e => strip_newline e.2 == mac) with
  | some e => .ok e.1
  | none => .error .NicNotFound

/-- Rust `str::split('/')` on the character list of a string
(`net.gateway.split('/').collect()`, `networking.rs` lines 56 and 77):
yields the (possibly empty) chunks between `'/'` separators; the result
always has `count '/' + 1` elements, never zero. -/
def split_slash : List Char → List (List Char)
  | [] => [[]]
  | c :: rest =>
    if c = '/' then [] :: split_slash rest
    else
      match split_slash rest with
      | [] => [[c]]
      | s :: ss => (c :: s) :: ss

/-- `netplan_networking` (`networking.rs` lines 54-68): resolve the NIC by
MAC, then build the per-interface YAML stanza from `gate_cidr[0]`
(gateway IP) and `gate_cidr[1]` (prefix length).  The unguarded
`gate_cidr[1]` index is a panic when the gateway contains no `'/'`. -/
def netplan_networking (env : NetEnv) (net : Network) : RunResult String :=
  match find_mac env net.mac with
  | .error e => .err e
  | .ok nic =>
    match split_slash net.gateway.data with
    | g0 :: g1 :: _ =>
      .ok ("    " ++ nic ++ ":\n" ++
           "      dhcp4: false\n" ++
           "      addresses:\n" ++
           "        - " ++ net.ip ++ "/" ++ String.mk g1 ++ "\n" ++
           "      gateway4: " ++ String.mk g0 ++ "\n" ++
           "      nameservers:\n" ++
           "        addresses: [8.8.8.8]")
    | _ => .panic

/-- Digit-string accumulator for `parse_u32`. -/
def digits_acc : List Char → Nat → Option Nat
  | [], acc => some acc
  | c :: rest, acc =>
    if c.isDigit then digits_acc rest (acc * 10 + (c.toNat - 48)) else none

/-- Rust `str::parse::<u32>()`: optional leading `'+'`, then one or more
ASCII digits, value below `2^32`; anything else is `Err`. -/
def parse_u32 (s : List Char) : Option Nat :=
  let t := match s with
    | '+' :: rest => rest
    | _ => s
  match t with
  | [] => none
  | _ =>
    match digits_acc t 0 with
    | none => none
    | some n => if n < 2 ^ 32 then some n else none

/-- The netmask computation of `systemd_networking` (`networking.rs` lines
81-87), on a `u32` prefix length `cidr`.  Debug-build Rust semantics: the
`u32` subtraction `32 - cidr` panics when `cidr > 32`, and the `u32` shift
panics when the shift amount `32 - cidr` is ≥ 32 (i.e. `cidr = 0`); both
are modelled as `none`.  (In a release build the shift amount is masked
instead, so `cidr = 0` would yield `0xFFFFFFFF`, i.e. 255.255.255.255 —
either way not `0.0.0.0`.)  Returns the four octets in the order the
`format!` string prints them: `(netmask_4, netmask_3, netmask_2,
netmask_1)`, most-significant first. -/
def systemd_netmask (cidr : Nat) : Option (Nat × Nat × Nat × Nat) :=
  if 32 < cidr then none
  else if 32 ≤ 32 - cidr then none
  else
    let netmask_og : Nat := ((2 ^ 32 - 1) <<< (32 - cidr)) % 2 ^ 32
    let netmask_1 : Nat := netmask_og &&& 0x000000FF
    let netmask_2 : Nat := (netmask_og &&& 0x0000FF00) >>> 8
    let netmask_3 : Nat := (netmask_og &&& 0x00FF0000) >>> 16
    let netmask_4 : Nat := (netmask_og &&& 0xFF000000) >>> 24
    some (netmask_4, netmask_3, netmask_2, netmask_1)

/-- `systemd_networking` (`networking.rs` lines 73-111): resolve the NIC by
MAC, split the gateway on `'/'` (unguarded `gate_cidr[1]` index: panic when
no `'/'`), parse the prefix length (`unwrap`: panic on parse failure),
compute the dotted netmask, and produce the `(file_name, contents)` pair
that `fs::write` receives. -/
def systemd_networking (env : NetEnv) (net : Network) : RunResult (String × String) :=
  match find_mac env net.mac with
  | .error e => .err e
  | .ok nic =>
    let uuid := env.uuid
    let file_name := "/etc/sysconfig/network-scripts/" ++ "ifcfg-" ++ nic
    match split_slash net.gateway.data with
    | g0 :: g1 :: _ =>
      let gateway := String.mk g0
      match parse_u32 g1 with
      | none => .panic
      | some cidr =>
        match systemd_netmask cidr with
        | none => .panic
        | some (netmask_4, netmask_3, netmask_2, netmask_1) =>
          let netmask := toString netmask_4 ++ "." ++ toString netmask_3 ++ "." ++
                         toString netmask_2 ++ "." ++ toString netmask_1
          .ok (file_name,
               "HWADDR=" ++ net.mac ++ "\n" ++
               "TYPE=Ethernet\n" ++
               "BOOTPROTO=none\n" ++
               "DEFROUTE=yes\n" ++
               "NETMASK=" ++ netmask ++ "\n" ++
               "GATEWAY=" ++ gateway ++ "\n" ++
               "DNS1=8.8.8.8\n" ++
               "DNS2=8.8.4.4\n" ++
               "IPADDR=" ++ net.ip ++ "\n" ++
               "IPV4_FAILURE_FATAL=no\n" ++
               "NAME=" ++ nic ++ "\n" ++
               "UUID=" ++ uuid ++ "\n" ++
               "DEVICE=" ++ nic ++ "\n" ++
               "ONBOOT=yes\n" ++
               "IPV6INIT=no")
    | _ => .panic

/-- The netplan arm of the `for net in nets` loop of `init_net`
(`networking.rs` lines 129-136): accumulate stanzas onto `contents`,
short-circuiting on the first error or panic (the `?` operator). -/
def netplan_fold (env : NetEnv) : List Network → String → RunResult String
  | [], contents => .ok contents
  | net :: rest, contents =>
    match netplan_networking env net with
    | .ok stanza => netplan_fold env rest (contents ++ "\n" ++ stanza)
    | .err e => .err e
    | .panic => .panic

/-- The systemd arm of the `for net in nets` loop of `init_net`: each
successful `systemd_networking` call performs its `fs::write` immediately
(`networking.rs` line 108), so the writes made before the first failing
descriptor remain in the effect trace. -/
def systemd_fold (env : NetEnv) : List Network → List FsOp × RunResult Unit
  | [] => ([], .ok ())
  | net :: rest =>
    match systemd_networking env net with
    | .ok fc =>
      let (ops, r) := systemd_fold env rest
      (FsOp.writeFile fc.1 fc.2 :: ops, r)
    | .err e => ([], .err e)
    | .panic => ([], .panic)

/-- Effect trace and outcome of `init_net`. -/
structure InitNetResult : Type where
  ops : List FsOp
  result : RunResult Unit
deriving DecidableEq, Repr

/-- `init_net` (`networking.rs` lines 115-147): pick the backend from the
existence of `/etc/netplan`; netplan accumulates one YAML document and
writes it (plus `netplan apply`) only after every descriptor succeeded and
only when the list is non-empty; systemd writes one file per descriptor as
it goes and runs `systemctl restart network` only when every descriptor
succeeded and the list is non-empty. -/
def init_net (env : NetEnv) (nets : List Network) : InitNetResult :=
  let netplan := env.netplanDir
  if netplan then
    match netplan_fold env nets ("network:\n  ethernets:") with
    | .ok contents =>
      if nets.length > 0 then
        { ops := [FsOp.writeFile "/etc/netplan/00-installer-config.yaml"
                    (contents ++ "\n" ++ "  version: 2\n"),
                  FsOp.runCmd "/bin/sudo" ["netplan", "apply"]],
          result := .ok () }
      else
        { ops := [], result := .ok () }
    | .err e => { ops := [], result := .err e }
    | .panic => { ops := [], result := .panic }
  else
    match systemd_fold env nets with
    | (ops, RunResult.ok _) =>
      if nets.length > 0 then
        { ops := ops ++ [FsOp.runCmd "/bin/sudo" ["systemctl", "restart", "network"]],
          result := .ok () }
      else
        { ops := ops, result := .ok () }
    | (ops, r) => { ops := ops, result := r }

/-! ## Concrete fixtures used by counterexamples and witnesses -/

/-- A plugin whose three entry points all return non-null strings. -/
def apiA : PluginApi :=
  { start := some "started", cmd_process := fun m => some ("echo:" ++ m), stop := some "stopped" }

/-- A plugin whose three entry points all return null. -/
def apiNull : PluginApi :=
  { start := none, cmd_process := fun _ => none, stop := none }

/-- A service environment in which no plugin path exists. -/
def env0 : Env := { pathExists := fun _ => false, load := fun _ => none }

/-- A registry holding the single plugin `"p"`. -/
def reg1 : Registry := [("p", apiA)]

/-- A registry holding the single all-null plugin `"n"`. -/
def regNull : Registry := [("n", apiNull)]

/-- A network environment with one NIC `eth0` at MAC `aa:bb:cc:dd:ee:ff`,
with the netplan backend present. -/
def envNP : NetEnv :=
  { interfaces := [("eth0", "aa:bb:cc:dd:ee:ff\n")], netplanDir := true, uuid := "u-1" }

/-- The same NIC table with the systemd backend (no `/etc/netplan`). -/
def envSD : NetEnv :=
  { interfaces := [("eth0", "aa:bb:cc:dd:ee:ff\n")], netplanDir := false, uuid := "u-1" }

/-- A descriptor whose MAC matches no interface of `envNP`/`envSD`. -/
def netBadMac : Network :=
  { mac := "00:00:00:00:00:00", ip := "10.0.0.2", gateway := "10.0.0.1/24" }

/-- A descriptor matching `eth0` whose gateway lacks the `'/'` separator. -/
def netNoSlash : Network :=
  { mac := "aa:bb:cc:dd:ee:ff", ip := "10.0.0.2", gateway := "10.0.0.1" }

/-- The `fs::write` effect a successful `systemd_networking` call performs
(`networking.rs` line 108), as an optional effect. -/
def sysWrite (env : NetEnv) (net : Network) : Option FsOp :=
  match systemd_networking env net with
  | .ok fc => some (FsOp.writeFile fc.1 fc.2)
  | _ => none

/-- The canonical mask formula as the specification words it:
`mask = (2^32 - 1) << (32 - p)` (taken modulo `2^32`), split into four
octets, most-significant octet first.  Stated from the spec's words, for
comparison with the code's `systemd_netmask`. -/
def spec_canonical_mask (p : Nat) : Nat × Nat × Nat × Nat :=
  let mask : Nat := ((2 ^ 32 - 1) <<< (32 - p)) % 2 ^ 32
  ((mask >>> 24) % 256, (mask >>> 16) % 256, (mask >>> 8) % 256, mask % 256)

/-! ## Shared helper lemmas -/

/-- Rust `split('/')` always yields one more chunk than there are `'/'`
separators. -/
theorem split_slash_length (l : List Char) :
    (split_slash l).length = l.count '/' + 1 := by
  induction l with
  | nil => simp [split_slash]
  | cons c rest ih =>
    by_cases h : c = '/'
    · subst h
      simp [split_slash, List.count_cons, ih]
    · cases hs : split_slash rest with
      | nil => rw [hs] at ih; simp at ih
      | cons s ss =>
        rw [hs] at ih
        simp only [split_slash, if_neg h, hs, List.length_cons] at ih ⊢
        rw [List.count_cons]
        simp [h]
        omega

/-- `find_mac` either resolves a NIC or fails with `NicNotFound`; no other
error is possible. -/
theorem find_mac_cases (env : NetEnv) (mac : String) :
    (∃ nic, find_mac env mac = .ok nic) ∨ find_mac env mac = .error .NicNotFound := by
  unfold find_mac
  cases env.interfaces.find? (fun e => strip_newline e.2 == mac) with
  | none => exact Or.inr rfl
  | some e => exact Or.inl ⟨e.1, rfl⟩

/-- When the NIC resolves and the gateway contains a `'/'`, the netplan
stanza builder succeeds (its only panic source is the `gate_cidr[1]`
index). -/
theorem netplan_ok_of_slash (env : NetEnv) (net : Network) (nic : String)
    (hfind : find_mac env net.mac = .ok nic) (hs : '/' ∈ net.gateway.data) :
    ∃ s, netplan_networking env net = .ok s := by
  have hlen : 2 ≤ (split_slash net.gateway.data).length := by
    rw [split_slash_length]
    have : 0 < net.gateway.data.count '/' := List.count_pos_iff.mpr hs
    omega
  match hsplit : split_slash net.gateway.data with
  | [] => rw [hsplit] at hlen; simp at hlen
  | [a] => rw [hsplit] at hlen; simp at hlen
  | a :: b :: t =>
    exact ⟨"    " ++ nic ++ ":\n" ++
           "      dhcp4: false\n" ++
           "      addresses:\n" ++
           "        - " ++ net.ip ++ "/" ++ String.mk b ++ "\n" ++
           "      gateway4: " ++ String.mk a ++ "\n" ++
           "      nameservers:\n" ++
           "        addresses: [8.8.8.8]",
      by simp only [netplan_networking, hfind, hsplit]⟩

/-- Netplan loop: with well-formed gateways, if some descriptor's MAC
matches no interface, the accumulation fails with `NicNotFound` no matter
what was accumulated so far (the `?` operator aborts before any write). -/
theorem netplan_fold_err (env : NetEnv) (nets : List Network)
    (hwf : ∀ net ∈ nets, '/' ∈ net.gateway.data)
    (hbad : ∃ net ∈ nets, find_mac env net.mac = .error .NicNotFound) :
    ∀ acc, netplan_fold env nets acc = .err .NicNotFound := by
  induction nets with
  | nil => simp at hbad
  | cons net rest ih =>
    intro acc
    rcases find_mac_cases env net.mac with ⟨nic, hok⟩ | herr
    · obtain ⟨s, hs⟩ := netplan_ok_of_slash env net nic hok (hwf net (by simp))
      have hbad' : ∃ n ∈ rest, find_mac env n.mac = .error .NicNotFound := by
        rcases hbad with ⟨n, hn, hfail⟩
        rcases List.mem_cons.mp hn with rfl | hn'
        · rw [hok] at hfail; exact absurd hfail (by simp)
        · exact ⟨n, hn', hfail⟩
      simp only [netplan_fold, hs]
      exact ih (fun n hn => hwf n (List.mem_cons_of_mem _ hn)) hbad' _
    · have : netplan_networking env net = .err .NicNotFound := by
        simp [netplan_networking, herr]
      simp [netplan_fold, this]

/-- Systemd loop: the writes of an all-successful front segment are
performed in list order, and the first failing descriptor stops the loop
with its error, keeping the earlier writes. -/
theorem systemd_fold_split (env : NetEnv) (post : List Network) (net : Network)
    (herr : systemd_networking env net = .err .NicNotFound) :
    ∀ fore : List Network, (∀ n ∈ fore, ∃ fc, systemd_networking env n = .ok fc) →
      systemd_fold env (fore ++ net :: post) =
        (fore.filterMap (sysWrite env), RunResult.err .NicNotFound) := by
  intro fore
  induction fore with
  | nil =>
    intro _
    simp [systemd_fold, herr]
  | cons n rest ih =>
    intro hok
    obtain ⟨fc, hfc⟩ := hok n (by simp)
    have hrest := ih (fun x hx => hok x (List.mem_cons_of_mem _ hx))
    simp only [List.cons_append, systemd_fold, hfc, hrest, List.filterMap_cons]
    simp [sysWrite, hfc, hrest]

/-! ## Claim theorems -/

/-- C1 (counterexample): with plugin `"p"` loaded, a `PluginCmd` request for
`"p"` with `msg` absent does NOT emit zero outbound messages — the
dispatcher's unconditional trailing `write_command` still runs, so the
outbound list is non-empty, refuting the claim. -/
theorem c1_counterexample :
    (service_step env0 reg1 { cmd := .PluginCmd, plugin := "p", msg := none }).out ≠ [] := by
  decide

/-- C1 (amended): a service-phase `PluginCmd` with `msg` absent emits
exactly one outbound `Command` — carrying the inbound `PluginCmd` tag,
`finished = some false`, and as payload: `resp` absent when the plugin is
loaded, the `PluginNotFound` string when it is not — invokes no plugin
entry point, does not panic, and leaves the registry mapping unchanged. -/
theorem c1_pluginCmd_absent_msg_one_response (env : Env) (r : Registry) (p : String) :
    (service_step env r { cmd := .PluginCmd, plugin := p, msg := none }).out =
      [{ cmd := .PluginCmd,
         resp := if (List.lookup p r).isSome then none
                 else some GVMError.PluginNotFound.toString,
         finished := some false }]
    ∧ (service_step env r { cmd := .PluginCmd, plugin := p, msg := none }).regs = r
    ∧ (service_step env r { cmd := .PluginCmd, plugin := p, msg := none }).events = []
    ∧ (service_step env r { cmd := .PluginCmd, plugin := p, msg := none }).panicked = false := by
  cases h : List.lookup p r <;> simp [service_step, h]

/-- C3: a `StopPlugin` request for a loaded identifier invokes the plugin's
`stop()` entry point exactly twice (the response is built from the second
call only, so the first result is discarded), and the registry entry is not
removed — the identifier still resolves to the original handle. -/
theorem c3_stop_invoked_twice_entry_kept (env : Env) (r : Registry) (X : String)
    (m : Option String) (api : PluginApi) (h : List.lookup X r = some api) :
    service_step env r { cmd := .StopPlugin, plugin := X, msg := m } =
      { events := [.callStop X, .callStop X],
        out := [{ cmd := .StopPlugin, resp := api.stop, finished := some true }],
        regs := r, exited := false, panicked := false }
    ∧ List.lookup X (service_step env r { cmd := .StopPlugin, plugin := X, msg := m }).regs
        = some api := by
  constructor <;> simp [service_step, h]

/-- C3 witness at plugin `"p"` of `reg1`. -/
theorem c3_stop_invoked_twice_entry_kept_witness :
    service_step env0 reg1 { cmd := .StopPlugin, plugin := "p", msg := none } =
      { events := [.callStop "p", .callStop "p"],
        out := [{ cmd := .StopPlugin, resp := apiA.stop, finished := some true }],
        regs := reg1, exited := false, panicked := false }
    ∧ List.lookup "p" (service_step env0 reg1
        { cmd := .StopPlugin, plugin := "p", msg := none }).regs = some apiA :=
  c3_stop_invoked_twice_entry_kept env0 reg1 "p" none apiA rfl

/-- C5: a second `CreatePluginLinks` for an identifier already in the
registry responds with the `PluginLoaded` error string and
`finished = some false`, and the registry afterwards is unchanged: it still
holds exactly one entry for the identifier, with the originally loaded
handle. -/
theorem c5_duplicate_load_rejected (env : Env) (r : Registry) (X : String)
    (m : Option String) (api : PluginApi)
    (h : List.lookup X r = some api) (h1 : r.countKey X = 1) :
    service_step env r { cmd := .CreatePluginLinks, plugin := X, msg := m } =
      { events := [],
        out := [{ cmd := .CreatePluginLinks,
                  resp := some GVMError.PluginLoaded.toString, finished := some false }],
        regs := r, exited := false, panicked := false }
    ∧ Registry.countKey
        (service_step env r { cmd := .CreatePluginLinks, plugin := X, msg := m }).regs X = 1
    ∧ List.lookup X
        (service_step env r { cmd := .CreatePluginLinks, plugin := X, msg := m }).regs
        = some api := by
  refine ⟨?_, ?_, ?_⟩ <;> simp [service_step, h, h1]

/-- C5 witness at plugin `"p"` of `reg1`. -/
theorem c5_duplicate_load_rejected_witness :
    service_step env0 reg1 { cmd := .CreatePluginLinks, plugin := "p", msg := none } =
      { events := [],
        out := [{ cmd := .CreatePluginLinks,
                  resp := some GVMError.PluginLoaded.toString, finished := some false }],
        regs := reg1, exited := false, panicked := false }
    ∧ Registry.countKey
        (service_step env0 reg1 { cmd := .CreatePluginLinks, plugin := "p", msg := none }).regs
        "p" = 1
    ∧ List.lookup "p"
        (service_step env0 reg1 { cmd := .CreatePluginLinks, plugin := "p", msg := none }).regs
        = some apiA :=
  c5_duplicate_load_rejected env0 reg1 "p" none apiA rfl (by decide)

/-- C6: `StartPlugin`, `PluginCmd` and `StopPlugin` for an identifier not in
the registry each respond with the `PluginNotFound` error string and
`finished = some false`, invoke no plugin entry point, and leave the
registry unchanged. -/
theorem c6_unknown_plugin_not_found (env : Env) (r : Registry) (X : String)
    (m : Option String) (c : GVMCmd)
    (hc : c = .StartPlugin ∨ c = .PluginCmd ∨ c = .StopPlugin)
    (h : List.lookup X r = none) :
    service_step env r { cmd := c, plugin := X, msg := m } =
      { events := [],
        out := [{ cmd := c, resp := some GVMError.PluginNotFound.toString,
                  finished := some false }],
        regs := r, exited := false, panicked := false } := by
  rcases hc with rfl | rfl | rfl <;> simp [service_step, h]

/-- C6 witness: `StartPlugin` for the never-loaded identifier `"q"`. -/
theorem c6_unknown_plugin_not_found_witness :
    service_step env0 reg1 { cmd := .StartPlugin, plugin := "q", msg := none } =
      { events := [],
        out := [{ cmd := .StartPlugin, resp := some GVMError.PluginNotFound.toString,
                  finished := some false }],
        regs := reg1, exited := false, panicked := false } :=
  c6_unknown_plugin_not_found env0 reg1 "q" none .StartPlugin (Or.inl rfl) rfl

/-- C7: when a loaded plugin's entry point is invoked and returns a null
pointer, the emitted response has `resp` absent and `finished = some true`
(success), for `StartPlugin`, `PluginCmd` with `msg` present, and
`StopPlugin` alike.  For `PluginCmd` the message must be free of interior
NUL characters: a NUL-containing message aborts the process in
`CString::new(..).unwrap()` (guest.rs line 164) before the entry point is
ever reached, so only NUL-free messages reach `cmd_process` at all. -/
theorem c7_null_return_is_success_without_payload (env : Env) (r : Registry) (X : String)
    (m : Option String) (api : PluginApi) (h : List.lookup X r = some api) :
    (api.start = none →
      service_step env r { cmd := .StartPlugin, plugin := X, msg := m } =
        { events := [.callStart X],
          out := [{ cmd := .StartPlugin, resp := none, finished := some true }],
          regs := r, exited := false, panicked := false })
    ∧ (∀ s, (Char.ofNat 0) ∉ s.data → api.cmd_process s = none →
      service_step env r { cmd := .PluginCmd, plugin := X, msg := some s } =
        { events := [.callProcess X s],
          out := [{ cmd := .PluginCmd, resp := none, finished := some true }],
          regs := r, exited := false, panicked := false })
    ∧ (api.stop = none →
      service_step env r { cmd := .StopPlugin, plugin := X, msg := m } =
        { events := [.callStop X, .callStop X],
          out := [{ cmd := .StopPlugin, resp := none, finished := some true }],
          regs := r, exited := false, panicked := false }) := by
  refine ⟨fun hnull => ?_, fun s hnul hnull => ?_, fun hnull => ?_⟩
  · simp [service_step, h, hnull]
  · simp [service_step, h, hnul, hnull]
  · simp [service_step, h, hnull]

/-- C7 witness at the all-null plugin `"n"` of `regNull`. -/
theorem c7_null_return_is_success_without_payload_witness :
    service_step env0 regNull { cmd := .StartPlugin, plugin := "n", msg := none } =
      { events := [.callStart "n"],
        out := [{ cmd := .StartPlugin, resp := none, finished := some true }],
        regs := regNull, exited := false, panicked := false }
    ∧ service_step env0 regNull { cmd := .PluginCmd, plugin := "n", msg := some "hi" } =
      { events := [.callProcess "n" "hi"],
        out := [{ cmd := .PluginCmd, resp := none, finished := some true }],
        regs := regNull, exited := false, panicked := false }
    ∧ service_step env0 regNull { cmd := .StopPlugin, plugin := "n", msg := none } =
      { events := [.callStop "n", .callStop "n"],
        out := [{ cmd := .StopPlugin, resp := none, finished := some true }],
        regs := regNull, exited := false, panicked := false } :=
  have h := c7_null_return_is_success_without_payload env0 regNull "n" none apiNull rfl
  ⟨h.1 rfl, h.2.1 "hi" (by decide) rfl, h.2.2 rfl⟩

/-- C8: a decoded `ShutdownGuest` message exits the service loop at once —
no response is written for it, no later input is consumed, the registry is
left as it was, and the loop reports successful termination (after which
`main` returns `Ok(())`). -/
theorem c8_shutdown_exits_without_response (env : Env) (r : Registry) (p : String)
    (m : Option String) (rest : List (Option PluginMsg)) :
    service_loop env r (some { cmd := .ShutdownGuest, plugin := p, msg := m } :: rest)
      = ([], r, true)
    ∧ service_step env r { cmd := .ShutdownGuest, plugin := p, msg := m } =
      { events := [], out := [], regs := r, exited := true, panicked := false } := by
  constructor <;> simp [service_loop, service_step]

/-- C2: the code's netmask agrees with the spec's canonical formula for
every prefix length in [1,32], but at `p = 0` the code shifts a `u32` by
32 bits (`32 - 0`), which is an overflow panic in a debug build (and a
masked shift yielding 255.255.255.255 in a release build) — never the
`0.0.0.0` the canonical formula produces.  The failing input is `p = 0`. -/
theorem c2_netmask_matches_spec_except_zero :
    systemd_netmask 0 = none
    ∧ spec_canonical_mask 0 = (0, 0, 0, 0)
    ∧ ∀ p, 1 ≤ p → p ≤ 32 → systemd_netmask p = some (spec_canonical_mask p) := by
  refine ⟨by decide, by decide, fun p h1 h2 => ?_⟩
  have key : ∀ q ∈ Finset.Icc 1 32, systemd_netmask q = some (spec_canonical_mask q) := by
    decide
  exact key p (Finset.mem_Icc.mpr ⟨h1, h2⟩)

/-- C2 witness at `p = 24` (the spec's own example: 255.255.255.0). -/
theorem c2_netmask_matches_spec_except_zero_witness :
    systemd_netmask 24 = some (spec_canonical_mask 24)
    ∧ spec_canonical_mask 24 = (255, 255, 255, 0) :=
  ⟨c2_netmask_matches_spec_except_zero.2.2 24 (by decide) (by decide), by decide⟩

/-- C9: `init_net` on the empty descriptor list is a no-op success on
either backend: no file is written and no external command is invoked. -/
theorem c9_init_net_empty_noop (env : NetEnv) :
    init_net env [] = { ops := [], result := .ok () } := by
  cases h : env.netplanDir <;> simp [init_net, netplan_fold, systemd_fold, h]

/-- C4: with well-formed (slash-separated) gateways, a batch containing a
descriptor whose MAC matches no interface makes the netplan backend fail
with `NicNotFound` having performed no write and run no command (fail-fast,
no partial application); the systemd backend processes descriptors strictly
in list order, keeps the per-descriptor files written before the first
failing descriptor, and stops with `NicNotFound` there (no restart
command). -/
theorem c4_backend_failure_semantics :
    (∀ (env : NetEnv) (nets : List Network), env.netplanDir = true →
      (∀ net ∈ nets, '/' ∈ net.gateway.data) →
      (∃ net ∈ nets, find_mac env net.mac = .error .NicNotFound) →
      init_net env nets = { ops := [], result := .err .NicNotFound })
    ∧ (∀ (env : NetEnv) (fore post : List Network) (net : Network),
      env.netplanDir = false →
      (∀ n ∈ fore, ∃ fc, systemd_networking env n = .ok fc) →
      find_mac env net.mac = .error .NicNotFound →
      init_net env (fore ++ net :: post) =
        { ops := fore.filterMap (sysWrite env), result := .err .NicNotFound }) := by
  constructor
  · intro env nets hnp hwf hbad
    have h := netplan_fold_err env nets hwf hbad ("network:\n  ethernets:")
    simp [init_net, hnp, h]
  · intro env fore post net hnp hok hfind
    have herr : systemd_networking env net = .err .NicNotFound := by
      simp [systemd_networking, hfind]
    have h := systemd_fold_split env post net herr fore hok
    simp [init_net, hnp, h]

/-- C4 witness: a one-descriptor batch whose MAC matches nothing fails with
`NicNotFound` and zero effects under both backends. -/
theorem c4_backend_failure_semantics_witness :
    init_net envNP [netBadMac] = { ops := [], result := .err .NicNotFound }
    ∧ init_net envSD [netBadMac] = { ops := [], result := .err .NicNotFound } :=
  ⟨c4_backend_failure_semantics.1 envNP [netBadMac] rfl
      (by decide) ⟨netBadMac, by simp, rfl⟩,
    by
      have h := c4_backend_failure_semantics.2 envSD [] [] netBadMac rfl
        (by simp) rfl
      simpa using h⟩

/-- C10: both stanza builders index the second `'/'`-separated component of
the gateway without a guard.  The index is in bounds exactly when the
gateway contains at least one `'/'`; when it contains none, both
`netplan_networking` and `systemd_networking` reach the panic outcome of
the embedding (an out-of-bounds `Vec` index in the code) even though the
NIC resolved — a failure mode beyond the out-of-range-prefix case. -/
theorem c10_gateway_second_component_guard :
    (∀ g : List Char, 2 ≤ (split_slash g).length ↔ '/' ∈ g)
    ∧ (∀ (env : NetEnv) (net : Network) (nic : String),
      find_mac env net.mac = .ok nic → '/' ∉ net.gateway.data →
      netplan_networking env net = .panic ∧ systemd_networking env net = .panic) := by
  constructor
  · intro g
    rw [split_slash_length]
    constructor
    · intro h
      have : 0 < g.count '/' := by omega
      exact List.count_pos_iff.mp this
    · intro h
      have : 0 < g.count '/' := List.count_pos_iff.mpr h
      omega
  · intro env net nic hfind hno
    have hcount : net.gateway.data.count '/' = 0 := by
      by_contra h
      exact hno (List.count_pos_iff.mp (Nat.pos_of_ne_zero h))
    have hlen : (split_slash net.gateway.data).length = 1 := by
      rw [split_slash_length, hcount]
    obtain ⟨a, ha⟩ := List.length_eq_one.mp hlen
    constructor
    · simp [netplan_networking, hfind, ha]
    · simp [systemd_networking, hfind, ha]

/-- C10 witness: with the NIC resolved, the slash-free gateway
`"10.0.0.1"` drives both builders into the out-of-bounds panic, while a
slash-separated gateway keeps the index in bounds. -/
theorem c10_gateway_second_component_guard_witness :
    (netplan_networking envSD netNoSlash = .panic
      ∧ systemd_networking envSD netNoSlash = .panic)
    ∧ 2 ≤ (split_slash "10.0.0.1/24".data).length :=
  ⟨c10_gateway_second_component_guard.2 envSD netNoSlash "eth0" rfl (by decide),
    (c10_gateway_second_component_guard.1 "10.0.0.1/24".data).mpr (by decide)⟩
